import Mathlib

/-!
Verification of `src/ta_lib/mmx/eda/visualization_utils.py`.

The module holds four plotting helpers over in-memory pandas DataFrames:
`get_spend_vs_activity_plot` (+ `_interact` with callback `update_graph1`),
`get_quarterly_spends_plot` (+ `_interact` with callback `update_graph1`),
`get_actual_vs_predicted_plot` (+ `_interact` with callback `update_figure`).

We embed the table-transformation parts of those functions: tables are lists
of records, numeric cells are exact rationals (with an explicit NaN/±infinity
layer where numpy division can produce them, and `Option` where a cell can be
missing), dates are naturals, and the chart-rendering calls are abstracted
into outcome constructors that carry the final working table.  Pandas
`unique()` keeps first-occurrence order, which we mirror with `uniqueList`;
pandas `groupby` additionally sorts the keys, a reordering no property below
depends on, so the grouped tables here keep first-occurrence key order.
-/

namespace MMX

/-- A pandas float cell: a finite rational, NaN, +infinity or -infinity. -/
inductive PFloat where
  | val : ℚ → PFloat
  | nan : PFloat
  | posInf : PFloat
  | negInf : PFloat
deriving DecidableEq, Repr

/-- Elementwise division `Spend / Activity` of two possibly-missing numeric
cells with numpy semantics: a missing operand or `0 / 0` gives NaN, and
`x / 0` gives +infinity or -infinity for nonzero `x`. -/
def pdDiv : Option ℚ → Option ℚ → PFloat
  | some a, some b =>
      if b ≠ 0 then .val (a / b)
      else if 0 < a then .posInf
      else if a < 0 then .negInf
      else .nan
  | _, _ => .nan

/-- One cell of `Series.fillna(0)`. -/
def fillnaZero : PFloat → PFloat
  | .nan => .val 0
  | x => x

/-- One cell of `Series.replace([np.inf, -np.inf], 0)`. -/
def replaceInfZero : PFloat → PFloat
  | .posInf => .val 0
  | .negInf => .val 0
  | x => x

/-- The derived-metric cell:
`(temp["Spend"] / temp["Activity"]).fillna(0).replace([np.inf, -np.inf], 0)`
(visualization_utils.py lines 90-93, 233-236, 391-392). -/
def costPerAct (spend activity : Option ℚ) : PFloat :=
  replaceInfZero (fillnaZero (pdDiv spend activity))

/-- A row of the spend-versus-activity Observation Table.  The date column is
addressed by name in the source; its values live in the `date` field, and the
optional group column's values live in `group`. -/
structure SpendRow where
  variable_description : String
  activity_type : String
  variable_activity_root : String
  date : Nat
  group : String
  Spend : Option ℚ
  Activity : Option ℚ
deriving DecidableEq, Repr

/-- `temp["cost_per_act"] = ...`: the Derived Metric Calculator run over every
row of the working table, pairing each row with its computed cell. -/
def addCostPerAct (rows : List SpendRow) : List (SpendRow × PFloat) :=
  rows.map (fun r => (r, costPerAct r.Spend r.Activity))

lemma costPerAct_of_ne_zero (q b : ℚ) (hb : b ≠ 0) :
    costPerAct (some q) (some b) = .val (q / b) := by
  simp [costPerAct, pdDiv, hb, fillnaZero, replaceInfZero]

lemma costPerAct_denominator_zero (q : ℚ) :
    costPerAct (some q) (some 0) = .val 0 := by
  rcases lt_trichotomy q 0 with h | h | h
  · simp [costPerAct, pdDiv, not_lt.mpr h.le, h, fillnaZero, replaceInfZero]
  · simp [costPerAct, pdDiv, h, fillnaZero, replaceInfZero]
  · simp [costPerAct, pdDiv, h, fillnaZero, replaceInfZero]

lemma costPerAct_missing (s a : Option ℚ) (h : s = none ∨ a = none) :
    costPerAct s a = .val 0 := by
  rcases h with h | h
  · subst h; simp [costPerAct, pdDiv, fillnaZero, replaceInfZero]
  · subst h
    cases s <;> simp [costPerAct, pdDiv, fillnaZero, replaceInfZero]

lemma costPerAct_finite (s a : Option ℚ) : ∃ x : ℚ, costPerAct s a = .val x := by
  match s, a with
  | none, _ => exact ⟨0, costPerAct_missing none a (Or.inl rfl)⟩
  | some q, none => exact ⟨0, costPerAct_missing (some q) none (Or.inr rfl)⟩
  | some q, some b =>
      by_cases hb : b = 0
      · subst hb; exact ⟨0, costPerAct_denominator_zero q⟩
      · exact ⟨q / b, costPerAct_of_ne_zero q b hb⟩

/-- C1: in the working table produced by the Derived Metric Calculator, each
row's `cost_per_act` cell equals `Spend / Activity` when `Activity` is a
present nonzero value and `Spend` is present; it is exactly zero when
`Activity` is zero or either operand is missing; and it is always a finite
value, never infinity, negative infinity or NaN. -/
theorem c1_cost_per_act_spec (rows : List SpendRow) (r : SpendRow) (c : PFloat)
    (h : (r, c) ∈ addCostPerAct rows) :
    (∀ q b, r.Spend = some q → r.Activity = some b → b ≠ 0 → c = .val (q / b)) ∧
    ((r.Activity = some 0 ∨ r.Activity = none ∨ r.Spend = none) → c = .val 0) ∧
    (∃ x : ℚ, c = .val x) := by
  have hc : c = costPerAct r.Spend r.Activity := by
    rcases List.mem_map.mp h with ⟨r0, _, heq⟩
    cases heq
    rfl
  subst hc
  refine ⟨?_, ?_, costPerAct_finite _ _⟩
  · intro q b hq hb hbne
    rw [hq, hb]
    exact costPerAct_of_ne_zero q b hbne
  · rintro (ha | ha | hs)
    · rw [ha]
      cases hS : r.Spend with
      | none => exact costPerAct_missing none (some 0) (Or.inl rfl)
      | some q => exact costPerAct_denominator_zero q
    · exact costPerAct_missing _ _ (Or.inr ha)
    · exact costPerAct_missing _ _ (Or.inl hs)

def c1Row : SpendRow :=
  ⟨"TV", "Impressions", "TV_Impressions", 0, "north", some 10, some 2⟩

/-- Witness for C1 at a concrete row: Spend 10 over Activity 2 yields 5. -/
theorem c1_cost_per_act_witness :
    (c1Row, PFloat.val 5) ∈ addCostPerAct [c1Row] ∧
    PFloat.val 5 = PFloat.val ((10 : ℚ) / 2) := by
  have hval : costPerAct (some 10) (some 2) = PFloat.val 5 := by
    rw [costPerAct_of_ne_zero 10 2 (by norm_num)]
    norm_num
  have hmem : (c1Row, PFloat.val 5) ∈ addCostPerAct [c1Row] := by
    simp only [addCostPerAct, List.map_cons, List.map_nil, c1Row, hval]
    exact List.mem_singleton.mpr rfl
  exact ⟨hmem, (c1_cost_per_act_spec [c1Row] c1Row _ hmem).1 10 2 rfl rfl (by norm_num)⟩

/-! Pandas `Series.unique()`: the distinct values of a column in
first-occurrence order. -/

def uniqueAux {α : Type} [DecidableEq α] : List α → List α → List α
  | [], _ => []
  | a :: l, seen => if a ∈ seen then uniqueAux l seen else a :: uniqueAux l (a :: seen)

/-- Distinct values of a list, first occurrence first (pandas `unique()`). -/
def uniqueList {α : Type} [DecidableEq α] (l : List α) : List α :=
  uniqueAux l []

lemma mem_uniqueAux {α : Type} [DecidableEq α] (a : α) :
    ∀ (l seen : List α), a ∈ uniqueAux l seen ↔ a ∈ l ∧ a ∉ seen := by
  intro l
  induction l with
  | nil => intro seen; simp [uniqueAux]
  | cons x l ih =>
      intro seen
      by_cases hx : x ∈ seen
      · rw [uniqueAux, if_pos hx, ih]
        constructor
        · rintro ⟨h1, h2⟩
          exact ⟨List.mem_cons_of_mem x h1, h2⟩
        · rintro ⟨h1, h2⟩
          rcases List.mem_cons.mp h1 with h1 | h1
          · subst h1; exact absurd hx h2
          · exact ⟨h1, h2⟩
      · rw [uniqueAux, if_neg hx]
        constructor
        · intro hmem
          rcases List.mem_cons.mp hmem with h1 | h1
          · subst h1; exact ⟨List.mem_cons_self a l, hx⟩
          · rcases (ih (x :: seen)).mp h1 with ⟨h2, h3⟩
            exact ⟨List.mem_cons_of_mem x h2,
              fun hs => h3 (List.mem_cons_of_mem x hs)⟩
        · rintro ⟨h1, h2⟩
          rcases List.mem_cons.mp h1 with h3 | h3
          · subst h3; exact List.mem_cons_self a _
          · by_cases hax : a = x
            · subst hax; exact List.mem_cons_self a _
            · refine List.mem_cons_of_mem x ((ih (x :: seen)).mpr ⟨h3, ?_⟩)
              intro hs
              rcases List.mem_cons.mp hs with h4 | h4
              · exact hax h4
              · exact h2 h4

lemma mem_uniqueList {α : Type} [DecidableEq α] (a : α) (l : List α) :
    a ∈ uniqueList l ↔ a ∈ l := by
  rw [uniqueList, mem_uniqueAux]
  simp

lemma nodup_uniqueAux {α : Type} [DecidableEq α] :
    ∀ (l seen : List α), (uniqueAux l seen).Nodup := by
  intro l
  induction l with
  | nil => intro seen; simp [uniqueAux]
  | cons x l ih =>
      intro seen
      by_cases hx : x ∈ seen
      · rw [uniqueAux, if_pos hx]; exact ih seen
      · rw [uniqueAux, if_neg hx]
        refine List.nodup_cons.mpr ⟨?_, ih (x :: seen)⟩
        intro hmem
        exact ((mem_uniqueAux x l (x :: seen)).mp hmem).2 (List.mem_cons_self x seen)

lemma nodup_uniqueList {α : Type} [DecidableEq α] (l : List α) :
    (uniqueList l).Nodup :=
  nodup_uniqueAux l []

/-- Python `str.lower()`: lowercase every character.  (Defined on the
character list so that concrete instances reduce in the kernel.) -/
def lowerStr (s : String) : String := ⟨s.data.map Char.toLower⟩

/-- A list with no duplicates that contains `k` filters down to exactly
`[k]` under the equality-with-`k` predicate. -/
lemma nodup_filter_eq {α : Type} [DecidableEq α] :
    ∀ (l : List α), l.Nodup → ∀ k : α, k ∈ l →
      l.filter (fun x => decide (x = k)) = [k] := by
  intro l
  induction l with
  | nil => intro _ k hk; cases hk
  | cons x l ih =>
      intro hl k hk
      rcases List.nodup_cons.mp hl with ⟨hx, hl2⟩
      rw [List.filter_cons]
      by_cases hxk : x = k
      · subst hxk
        rw [if_pos (by simp)]
        have hnil : l.filter (fun y => decide (y = x)) = [] := by
          rw [List.filter_eq_nil_iff]
          intro a ha
          simp only [decide_eq_true_eq]
          intro h
          subst h
          exact hx ha
        rw [hnil]
      · rw [if_neg (by simp [hxk])]
        rcases List.mem_cons.mp hk with h | h
        · exact absurd h.symm hxk
        · exact ih hl2 k h

/-! The quarterly-spends data and `get_quarterly_spends_plot`
(visualization_utils.py lines 554-617) together with the callback
`update_graph1` of `get_quarterly_spends_plot_interact` (lines 534-541). -/

/-- A row of the quarterly-spends table. -/
structure QRow where
  variable_description : String
  group : String
  YEAR_QTR : String
  value : ℚ
deriving DecidableEq, Repr

/-- `quarterly_spend_data[variable_description == svd]` — case-sensitive
equality exactly as at source lines 496, 536, 539, 600, 606. -/
def qFilter (data : List QRow) (svd : String) : List QRow :=
  data.filter (fun r => decide (r.variable_description = svd))

/-- Distinct variable descriptions of the quarterly table (line 586). -/
def qVars (data : List QRow) : List String :=
  uniqueList (data.map (fun r => r.variable_description))

/-- Distinct `YEAR_QTR` keys of a table, in first-occurrence order. -/
def qtrKeys (rows : List QRow) : List String :=
  uniqueList (rows.map (fun r => r.YEAR_QTR))

/-- `temp.groupby(["YEAR_QTR"]).sum(numeric_only=False).reset_index()`:
one output row per distinct key, carrying the sum of `value` over the rows
of that key (lines 537, 541, 602, 609). -/
def qGroupSum (rows : List QRow) : List (String × ℚ) :=
  (qtrKeys rows).map (fun k =>
    (k, ((rows.filter (fun r => decide (r.YEAR_QTR = k))).map (fun r => r.value)).sum))

/-- Outcome of `get_quarterly_spends_plot`: either the validator message with
the requested value and the enumerated distinct list, or the working table
handed to the chart call. -/
inductive QOutcome where
  | invalid : String → List String → QOutcome
  | figure : List (String × ℚ) → QOutcome
deriving DecidableEq, Repr

/-- `get_quarterly_spends_plot` (lines 554-617): validate the variable
description case-insensitively against the distinct values, then filter by
case-sensitive equality, optionally narrow to one group value, and in both
branches group by `YEAR_QTR` and sum. -/
def getQuarterlySpendsPlot (data : List QRow) (svd : String)
    (group_value : Option String) : QOutcome :=
  if ¬ (qVars data).any (fun v => lowerStr v == lowerStr svd) then
    .invalid svd (qVars data)
  else
    match group_value with
    | none => .figure (qGroupSum (qFilter data svd))
    | some g =>
        .figure (qGroupSum ((qFilter data svd).filter (fun r => decide (r.group = g))))

/-- The callback `update_graph1` of `get_quarterly_spends_plot_interact`
(lines 534-541): the sentinel `"all_values"` skips the group narrowing; both
branches group by `YEAR_QTR` and sum. -/
def qUpdateGraph1 (data : List QRow) (touchpoint geo : String) : List (String × ℚ) :=
  if geo = "all_values" then qGroupSum (qFilter data touchpoint)
  else qGroupSum ((qFilter data touchpoint).filter (fun r => decide (r.group = geo)))

/-! The actual-versus-predicted table, `get_actual_vs_predicted_plot`
(lines 701-770) and the callback `update_figure` of
`get_actual_vs_predicted_plot_interact` (lines 679-696). -/

/-- A row of the actual-versus-predicted table. -/
structure AvpRow where
  date : Nat
  group : String
  actuals : ℚ
  preds : ℚ
deriving DecidableEq, Repr

/-- The actual-versus-predicted table together with the names of its date and
group columns, so that looking a column name up can fail. -/
structure AvpTable where
  dateName : String
  groupName : String
  rows : List AvpRow

/-- The column labels of an `AvpTable`. -/
def avpColumns (t : AvpTable) : List String :=
  [t.dateName, t.groupName, "actuals", "preds"]

/-- Lines 746-748 and 655-657: when `is_log` is true, apply the elementwise
transform (`np.exp` in the source, abstracted here to an arbitrary elementwise
map `f` since floats are kept abstract) to the `actuals` and `preds` columns;
otherwise pass the rows through unchanged. -/
def applyLog (f : ℚ → ℚ) (is_log : Bool) (rows : List AvpRow) : List AvpRow :=
  if is_log then
    rows.map (fun r => { r with actuals := f r.actuals, preds := f r.preds })
  else rows

/-- Distinct dates of the table, first occurrence first. -/
def avpDates (rows : List AvpRow) : List Nat :=
  uniqueList (rows.map (fun r => r.date))

/-- `data.groupby(date_col).sum().reset_index()` restricted to the two columns
the chart reads: one output row per distinct date with the sums of `actuals`
and of `preds` (lines 681 and 751). -/
def avpGroupSum (rows : List AvpRow) : List (Nat × ℚ × ℚ) :=
  (avpDates rows).map (fun d =>
    (d, ((rows.filter (fun r => decide (r.date = d))).map (fun r => r.actuals)).sum,
        ((rows.filter (fun r => decide (r.date = d))).map (fun r => r.preds)).sum))

/-- `data[data[group_col] == group_value]` (line 754).  Looking up `None` or a
label that is not a column raises `KeyError`, modelled as `none`; a label that
is a column but not the group column compares a non-group column against the
requested string, which matches no row. -/
def selectByGroup (t : AvpTable) (rows : List AvpRow) (group_col : Option String)
    (gv : String) : Option (List AvpRow) :=
  match group_col with
  | none => none
  | some c =>
      if c ∈ avpColumns t then
        some (rows.filter (fun r => if c = t.groupName then decide (r.group = gv) else false))
      else none

/-- Outcome of the actual-versus-predicted plotting code: a figure over the
date-grouped sums, a figure over un-aggregated filtered rows, or the
`NameError` raised at `px.line(filtered_df, ...)` when `filtered_df` was never
assigned because the `except` branch only printed a message (lines 753-759). -/
inductive AvpOutcome where
  | figure : List (Nat × ℚ × ℚ) → AvpOutcome
  | figureRows : List AvpRow → AvpOutcome
  | unboundLocal : AvpOutcome
deriving DecidableEq, Repr

/-- `get_actual_vs_predicted_plot` (lines 701-770): copy the input, optionally
exponentiate, then either group-and-sum by date (`group_value` is `"all"` or
`None`) or narrow to one group value.  The returned list of strings holds the
messages printed on the error path. -/
def getActualVsPredictedPlot (t : AvpTable) (f : ℚ → ℚ) (is_log : Bool)
    (group_col : Option String) (group_value : Option String) :
    List String × AvpOutcome :=
  let data := applyLog f is_log t.rows
  match group_value with
  | none => ([], .figure (avpGroupSum data))
  | some gv =>
      if gv = "all" then ([], .figure (avpGroupSum data))
      else
        match selectByGroup t data group_col gv with
        | some rows => ([], .figureRows rows)
        | none => (["Please enter a valid group column name"], .unboundLocal)

/-- The callback `update_figure` of `get_actual_vs_predicted_plot_interact`
(lines 679-696), over the table already transformed at setup time: the
sentinel `"select_all"` groups and sums by date; a specific group value only
filters, with no aggregation. -/
def updateFigure (t : AvpTable) (f : ℚ → ℚ) (is_log : Bool)
    (selected_g : String) : AvpOutcome :=
  let data := applyLog f is_log t.rows
  if selected_g = "select_all" then .figure (avpGroupSum data)
  else .figureRows (data.filter (fun r => decide (r.group = selected_g)))

/-- A concrete actual-versus-predicted table whose group column is named
`"geo"`. -/
def c2Table : AvpTable := ⟨"date", "geo", [⟨0, "north", 1, 2⟩]⟩

/-- C2 (code bug): calling `get_actual_vs_predicted_plot` with the
nonexistent group column name `"region"` and the non-sentinel group value
`"north"` prints the invalid-group-column message, but then reaches
`px.line(filtered_df, ...)` with `filtered_df` never assigned, so the call
raises `NameError` instead of returning without a chart. -/
theorem c2_invalid_group_column_eval :
    getActualVsPredictedPlot c2Table id false (some "region") (some "north")
      = (["Please enter a valid group column name"], AvpOutcome.unboundLocal) := by
  rfl

lemma qGroupSum_filter_key (rows : List QRow) (k : String) (hk : k ∈ qtrKeys rows) :
    (qGroupSum rows).filter (fun p => decide (p.1 = k))
      = [(k, ((rows.filter (fun r => decide (r.YEAR_QTR = k))).map
          (fun r => r.value)).sum)] := by
  rw [qGroupSum, List.filter_map]
  have hcomp : ((fun p : String × ℚ => decide (p.1 = k)) ∘
      (fun k2 => (k2, ((rows.filter (fun r => decide (r.YEAR_QTR = k2))).map
        (fun r => r.value)).sum))) = fun x => decide (x = k) := rfl
  rw [hcomp, nodup_filter_eq (qtrKeys rows) (nodup_uniqueList _) k hk]
  rfl

def c3Data : List QRow :=
  [⟨"TV", "A", "2021Q1", 1⟩, ⟨"TV", "A", "2021Q1", 2⟩]

/-- C3 counterexample: with a specific sub-group `"A"` requested,
`get_quarterly_spends_plot` still runs the group-and-sum step — the two
filtered rows of quarter `2021Q1` are collapsed into the single summed row
`(2021Q1, 3)` instead of being handed to the chart unaggregated. -/
theorem c3_aggregation_not_skipped_cex :
    getQuarterlySpendsPlot c3Data "TV" (some "A")
      = QOutcome.figure [("2021Q1", 3)] ∧
    (qFilter c3Data "TV").filter (fun r => decide (r.group = "A"))
      = [⟨"TV", "A", "2021Q1", 1⟩, ⟨"TV", "A", "2021Q1", 2⟩] := by
  have hfilter : (qFilter c3Data "TV").filter (fun r => decide (r.group = "A"))
      = [⟨"TV", "A", "2021Q1", 1⟩, ⟨"TV", "A", "2021Q1", 2⟩] := by decide
  refine ⟨?_, hfilter⟩
  have hcond : ((qVars c3Data).any (fun v => lowerStr v == lowerStr "TV")) = true := by
    decide
  rw [getQuarterlySpendsPlot, if_neg (by simp [hcond]), hfilter]
  have hkeys : qtrKeys [(⟨"TV", "A", "2021Q1", 1⟩ : QRow), ⟨"TV", "A", "2021Q1", 2⟩]
      = ["2021Q1"] := by decide
  rw [qGroupSum, hkeys]
  norm_num [List.filter, List.sum_cons, List.sum_nil]

/-! `get_spend_vs_activity_plot` (lines 282-449). -/

/-- A column label as handed to `data[...]`: either a string, or the builtin
type `str` that the `date_col` parameter defaults to (line 287,
`date_col=str`), which is never among a table's column labels. -/
inductive Label where
  | col : String → Label
  | pyStr : Label
deriving DecidableEq, Repr

/-- The spend-versus-activity table with the name of its date column, so that
looking the `date_col` argument up can fail.  The values of the date column
live in each row's `date` field and those of the group column in `group`. -/
structure SpendTable where
  dateName : String
  rows : List SpendRow

/-- The column labels of a `SpendTable`. -/
def spendColumns (t : SpendTable) : List Label :=
  [.col "variable_description", .col "activity_type", .col "variable_activity_root",
   .col t.dateName, .col "group", .col "Spend", .col "Activity"]

/-- `data[date_col].min()` (line 327); pandas yields NaN on an empty column,
a case no property below exercises, modelled as 0. -/
def minDate (rows : List SpendRow) : Nat :=
  match rows.map (fun r => r.date) with
  | [] => 0
  | d :: ds => ds.foldl Nat.min d

/-- `data[date_col].max()` (line 328). -/
def maxDate (rows : List SpendRow) : Nat :=
  match rows.map (fun r => r.date) with
  | [] => 0
  | d :: ds => ds.foldl Nat.max d

/-- `spend_activity_data["variable_description"].unique()` (line 333). -/
def svapVariableDescriptions (t : SpendTable) : List String :=
  uniqueList (t.rows.map (fun r => r.variable_description))

/-- Lines 345-350: the distinct `activity_type` values of the rows whose
`variable_description` matches the requested one case-insensitively. -/
def svapUniqueActivities (t : SpendTable) (vd : String) : List String :=
  uniqueList ((t.rows.filter
    (fun r => decide (lowerStr r.variable_description = lowerStr vd))).map
    (fun r => r.activity_type))

/-- The group predicate of the filter: skipped when `group_value` is `None`
(lines 363-375), case-sensitive equality otherwise (line 388). -/
def groupPred (group_value : Option String) (r : SpendRow) : Bool :=
  match group_value with
  | none => true
  | some g => decide (r.group = g)

/-- The row filter of `get_spend_vs_activity_plot` (lines 363-389):
case-insensitive equality on `variable_description` and `activity_type`,
inclusive date bounds, and the optional exact group predicate. -/
def spendFilter (data : List SpendRow) (vd act : String) (sd ed : Nat)
    (group_value : Option String) : List SpendRow :=
  data.filter (fun r =>
    decide (lowerStr r.variable_description = lowerStr vd) &&
    decide (lowerStr r.activity_type = lowerStr act) &&
    decide (sd ≤ r.date) && decide (r.date ≤ ed) &&
    groupPred group_value r)

/-- Outcome of `get_spend_vs_activity_plot`: the KeyError of a failed column
lookup, a validator message carrying the rejected value and the enumerated
list, or the working table (with its derived column) handed to the chart. -/
inductive SvapOutcome where
  | keyError : Label → SvapOutcome
  | invalidValue : String → List String → SvapOutcome
  | figure : List (SpendRow × PFloat) → SvapOutcome
deriving DecidableEq, Repr

/-- Lines 333-392 of `get_spend_vs_activity_plot`, once the date bounds are
fixed: validate the variable description against the table's distinct values,
then the activity type against the distinct activity types of the rows
matching that variable (both case-insensitively), then filter and add the
derived column.  `data[date_col]` is looked up while the filter's predicates
are built (line 373), so after both validations pass a `date_col` that is no
column raises KeyError; a valid `date_col` is taken to denote the date
column, and a `group_col` lookup failure (line 388) is not modelled since no
property exercises it. -/
def svapAfterDates (t : SpendTable) (vd act : String) (sd ed : Nat)
    (date_col : Label) (group_value : Option String) : SvapOutcome :=
  if ¬ (svapVariableDescriptions t).any (fun v => lowerStr v == lowerStr vd) then
    .invalidValue vd (svapVariableDescriptions t)
  else if ¬ (svapUniqueActivities t vd).any (fun a => lowerStr a == lowerStr act) then
    .invalidValue act (svapUniqueActivities t vd)
  else if date_col ∈ spendColumns t then
    .figure (addCostPerAct (spendFilter t.rows vd act sd ed group_value))
  else .keyError date_col

/-- `get_spend_vs_activity_plot` (lines 282-449): an empty `date_range`
defaults the bounds to `data[date_col].min()` and `.max()` — the very first
column lookups the function performs (lines 326-328), before any
validation. -/
def getSpendVsActivityPlot (t : SpendTable) (vd act : String)
    (date_range : Option (Nat × Nat)) (date_col : Label)
    (group_value : Option String) : SvapOutcome :=
  match date_range with
  | none =>
      if date_col ∈ spendColumns t then
        svapAfterDates t vd act (minDate t.rows) (maxDate t.rows) date_col group_value
      else .keyError date_col
  | some (sd, ed) => svapAfterDates t vd act sd ed date_col group_value

lemma groupPred_eq_true (gv : Option String) (r : SpendRow) :
    groupPred gv r = true ↔ ∀ g, gv = some g → r.group = g := by
  cases gv with
  | none => simp [groupPred]
  | some g => simp [groupPred]

def c4Data : List QRow := [⟨"TV", "A", "2021Q1", 1⟩]

/-- C4 counterexample: the selector `"tv"` matches the stored value `"TV"`
case-insensitively (and passes validation), yet `get_quarterly_spends_plot`
filters with case-sensitive equality and selects no rows, so the chart data
is empty. -/
theorem c4_case_sensitivity_cex :
    getQuarterlySpendsPlot c4Data "tv" none = QOutcome.figure [] ∧
    qFilter c4Data "tv" = [] ∧
    lowerStr "TV" = lowerStr "tv" := by
  have hfil : qFilter c4Data "tv" = [] := by decide
  refine ⟨?_, hfil, by decide⟩
  have hcond : ((qVars c4Data).any (fun v => lowerStr v == lowerStr "tv")) = true := by
    decide
  rw [getQuarterlySpendsPlot, if_neg (by simp [hcond]), hfil]
  rfl

/-- C4 amended: a row passes the Row Filter of `get_spend_vs_activity_plot`
exactly when the variable-description and activity-type columns match the
requested values case-insensitively, the date lies in the inclusive range,
and the group column equals the requested value exactly (the predicate being
skipped for an absent group value); but in `get_quarterly_spends_plot` the
variable-description predicate is case-sensitive exact equality, so a
selector valid only up to case selects no rows there. -/
theorem c4_amended_filter_predicates (data : List SpendRow) (vd act : String)
    (sd ed : Nat) (gv : Option String) (r : SpendRow)
    (qdata : List QRow) (svd : String) (q : QRow) :
    (r ∈ spendFilter data vd act sd ed gv ↔
      r ∈ data ∧ lowerStr r.variable_description = lowerStr vd ∧
      lowerStr r.activity_type = lowerStr act ∧ sd ≤ r.date ∧ r.date ≤ ed ∧
      (∀ g, gv = some g → r.group = g)) ∧
    (q ∈ qFilter qdata svd ↔ q ∈ qdata ∧ q.variable_description = svd) := by
  constructor
  · rw [spendFilter, List.mem_filter]
    simp only [Bool.and_eq_true, decide_eq_true_eq, groupPred_eq_true]
    tauto
  · rw [qFilter, List.mem_filter]
    simp only [decide_eq_true_eq]

def c4SpendRow : SpendRow := ⟨"TV", "IMP", "root", 0, "g", some 1, some 1⟩

/-- Witness for C4's amended theorem: a row matching the selectors only up to
case passes the `get_spend_vs_activity_plot` filter. -/
theorem c4_amended_witness :
    c4SpendRow ∈ spendFilter [c4SpendRow] "tv" "imp" 0 1 none := by
  refine ((c4_amended_filter_predicates [c4SpendRow] "tv" "imp" 0 1 none c4SpendRow
    [] "x" ⟨"", "", "", 0⟩).1).mpr ?_
  refine ⟨List.mem_singleton.mpr rfl, by decide, by decide, by decide, by decide, ?_⟩
  intro g hg
  cases hg

/-- A table with two variables whose activity types differ, so the distinct
activity types of one variable are a strict subset of the whole column's. -/
def c5Table : SpendTable :=
  ⟨"date", [⟨"TV", "Impressions", "r1", 0, "g", some 1, some 1⟩,
            ⟨"Radio", "GRP", "r2", 0, "g", some 1, some 1⟩]⟩

/-- C5 counterexample: the requested activity type `"Clicks"` is not among
the table's distinct `activity_type` values, yet the validator reports it
with only the activity types of the selected variable (`["Impressions"]`),
not the full distinct-value list `["Impressions", "GRP"]` of the column. -/
theorem c5_validator_list_cex :
    getSpendVsActivityPlot c5Table "TV" "Clicks" (some (0, 10)) (Label.col "date") none
      = SvapOutcome.invalidValue "Clicks" ["Impressions"] ∧
    uniqueList (c5Table.rows.map (fun r => r.activity_type))
      = ["Impressions", "GRP"] ∧
    ((uniqueList (c5Table.rows.map (fun r => r.activity_type))).any
      (fun a => lowerStr a == lowerStr "Clicks")) = false ∧
    (["Impressions"] ≠ (["Impressions", "GRP"] : List String)) := by
  refine ⟨?_, by decide, by decide, by decide⟩
  have h1 : ((svapVariableDescriptions c5Table).any
      (fun v => lowerStr v == lowerStr "TV")) = true := by decide
  have h2 : ((svapUniqueActivities c5Table "TV").any
      (fun a => lowerStr a == lowerStr "Clicks")) = false := by decide
  have h3 : svapUniqueActivities c5Table "TV" = ["Impressions"] := by decide
  show svapAfterDates c5Table "TV" "Clicks" 0 10 (Label.col "date") none = _
  rw [svapAfterDates, if_neg (by simp [h1]), if_pos (by simp [h2]), h3]

/-- C5 amended: a variable-description value that matches no distinct value
of its column case-insensitively is reported together with the column's full
distinct-value list (in both static functions); but the activity-type value
is checked against — and reported with — only the distinct activity types of
the rows of the selected variable description, not the full column; in all
cases, no chart is produced. -/
theorem c5_amended_validator (t : SpendTable) (vd act : String) (sd ed : Nat)
    (date_col : Label) (gv : Option String) :
    (((svapVariableDescriptions t).any (fun v => lowerStr v == lowerStr vd)) = false →
      getSpendVsActivityPlot t vd act (some (sd, ed)) date_col gv
        = SvapOutcome.invalidValue vd (svapVariableDescriptions t)) ∧
    (((svapVariableDescriptions t).any (fun v => lowerStr v == lowerStr vd)) = true →
     ((svapUniqueActivities t vd).any (fun a => lowerStr a == lowerStr act)) = false →
      getSpendVsActivityPlot t vd act (some (sd, ed)) date_col gv
        = SvapOutcome.invalidValue act (svapUniqueActivities t vd)) ∧
    (∀ (qdata : List QRow) (svd : String) (gval : Option String),
      ((qVars qdata).any (fun v => lowerStr v == lowerStr svd)) = false →
      getQuarterlySpendsPlot qdata svd gval = QOutcome.invalid svd (qVars qdata)) := by
  refine ⟨?_, ?_, ?_⟩
  · intro h
    show svapAfterDates t vd act sd ed date_col gv = _
    rw [svapAfterDates, if_pos (by simp [h])]
  · intro h1 h2
    show svapAfterDates t vd act sd ed date_col gv = _
    rw [svapAfterDates, if_neg (by simp [h1]), if_pos (by simp [h2])]
  · intro qdata svd gval h
    rw [getQuarterlySpendsPlot.eq_def, if_pos (by simp [h])]

/-- Witness for C5's amended theorem: an unknown variable description is
reported with the full distinct variable list. -/
theorem c5_amended_witness :
    ((svapVariableDescriptions c5Table).any
      (fun v => lowerStr v == lowerStr "Nope")) = false ∧
    getSpendVsActivityPlot c5Table "Nope" "Impressions" (some (0, 10))
        (Label.col "date") none
      = SvapOutcome.invalidValue "Nope" (svapVariableDescriptions c5Table) := by
  have h : ((svapVariableDescriptions c5Table).any
      (fun v => lowerStr v == lowerStr "Nope")) = false := by decide
  exact ⟨h, (c5_amended_validator c5Table "Nope" "Impressions" 0 10
    (Label.col "date") none).1 h⟩

def c9Table : SpendTable :=
  ⟨"date", [⟨"TV", "Impressions", "r1", 0, "g", some 1, some 1⟩]⟩

/-- C9 counterexample: a call that omits `date_col` (leaving the builtin type
`str` as its value) but supplies a nonempty `date_range` together with an
unknown variable description reaches the validator and returns its message —
so the lookup failure does not precede validation in every such call, and a
validator message can be produced. -/
theorem c9_lookup_order_cex :
    getSpendVsActivityPlot c9Table "Nope" "Impressions" (some (0, 10))
        Label.pyStr none
      = SvapOutcome.invalidValue "Nope" ["TV"] ∧
    SvapOutcome.invalidValue "Nope" ["TV"] ≠ SvapOutcome.keyError Label.pyStr := by
  have h : ((svapVariableDescriptions c9Table).any
      (fun v => lowerStr v == lowerStr "Nope")) = false := by decide
  have h9 := (c5_amended_validator c9Table "Nope" "Impressions" 0 10
    Label.pyStr none).1 h
  refine ⟨?_, by decide⟩
  rw [h9]
  decide

/-- C9 amended: when `date_col` is omitted its value is the builtin type
`str`, which is no column label; if `date_range` is also omitted the very
first statement `data[date_col].min()` raises the lookup error, before any
validation; but when a nonempty `date_range` is supplied, validation runs
first and the lookup error only occurs at the filtering step once both
selector values validate. -/
theorem c9_amended_default_date_col (t : SpendTable) (vd act : String)
    (gv : Option String) (sd ed : Nat) :
    getSpendVsActivityPlot t vd act none Label.pyStr gv
      = SvapOutcome.keyError Label.pyStr ∧
    (((svapVariableDescriptions t).any (fun v => lowerStr v == lowerStr vd)) = true →
     ((svapUniqueActivities t vd).any (fun a => lowerStr a == lowerStr act)) = true →
      getSpendVsActivityPlot t vd act (some (sd, ed)) Label.pyStr gv
        = SvapOutcome.keyError Label.pyStr) := by
  have hnot : Label.pyStr ∉ spendColumns t := by
    simp [spendColumns]
  constructor
  · show (if Label.pyStr ∈ spendColumns t then
        svapAfterDates t vd act (minDate t.rows) (maxDate t.rows) Label.pyStr gv
      else SvapOutcome.keyError Label.pyStr) = SvapOutcome.keyError Label.pyStr
    rw [if_neg hnot]
  · intro h1 h2
    show svapAfterDates t vd act sd ed Label.pyStr gv = _
    rw [svapAfterDates, if_neg (by simp [h1]), if_neg (by simp [h2]), if_neg hnot]

/-- Witness for C9's amended theorem at a concrete table with valid
selectors. -/
theorem c9_amended_witness :
    ((svapVariableDescriptions c9Table).any
      (fun v => lowerStr v == lowerStr "TV")) = true ∧
    ((svapUniqueActivities c9Table "TV").any
      (fun a => lowerStr a == lowerStr "Impressions")) = true ∧
    getSpendVsActivityPlot c9Table "TV" "Impressions" (some (0, 10))
        Label.pyStr none
      = SvapOutcome.keyError Label.pyStr := by
  have h1 : ((svapVariableDescriptions c9Table).any
      (fun v => lowerStr v == lowerStr "TV")) = true := by decide
  have h2 : ((svapUniqueActivities c9Table "TV").any
      (fun a => lowerStr a == lowerStr "Impressions")) = true := by decide
  exact ⟨h1, h2,
    (c9_amended_default_date_col c9Table "TV" "Impressions" none 0 10).2 h1 h2⟩

/-! The callback `update_graph1` of `get_spend_vs_activity_plot_interact`
(lines 192-236). -/

/-- The grouping key of lines 200-211 and 220-231:
`(date, variable_activity_root, variable_description, activity_type)`. -/
abbrev SpendKey := Nat × String × String × String

def sKey (r : SpendRow) : SpendKey :=
  (r.date, r.variable_activity_root, r.variable_description, r.activity_type)

/-- The distinct grouping keys, first occurrence first. -/
def spendKeys (rows : List SpendRow) : List SpendKey :=
  uniqueList (rows.map sKey)

/-- `temp.groupby([...]).sum(numeric_only=False).reset_index()` restricted to
the numeric columns the charts read: one output row per distinct key carrying
the sums of `Spend` and of `Activity` over the collapsed rows (pandas sums
skip missing cells, so a missing cell contributes zero). -/
def spendGroupSum (rows : List SpendRow) : List (SpendKey × ℚ × ℚ) :=
  (spendKeys rows).map (fun k =>
    (k, ((rows.filter (fun r => decide (sKey r = k))).map
          (fun r => r.Spend.getD 0)).sum,
        ((rows.filter (fun r => decide (sKey r = k))).map
          (fun r => r.Activity.getD 0)).sum))

lemma spendGroupSum_filter_key (rows : List SpendRow) (k : SpendKey)
    (hk : k ∈ spendKeys rows) :
    (spendGroupSum rows).filter (fun p => decide (p.1 = k))
      = [(k, ((rows.filter (fun r => decide (sKey r = k))).map
            (fun r => r.Spend.getD 0)).sum,
           ((rows.filter (fun r => decide (sKey r = k))).map
            (fun r => r.Activity.getD 0)).sum)] := by
  rw [spendGroupSum, List.filter_map]
  have hcomp : ((fun p : SpendKey × ℚ × ℚ => decide (p.1 = k)) ∘
      (fun k2 => (k2, ((rows.filter (fun r => decide (sKey r = k2))).map
          (fun r => r.Spend.getD 0)).sum,
        ((rows.filter (fun r => decide (sKey r = k2))).map
          (fun r => r.Activity.getD 0)).sum))) = fun x => decide (x = k) := rfl
  rw [hcomp, nodup_filter_eq (spendKeys rows) (nodup_uniqueList _) k hk]
  rfl

/-- The row filter of `update_graph1` (lines 194-199 and 213-218): the
dropdown values are compared with case-sensitive equality, and the date-range
bounds are inclusive. -/
def updateGraph1Filter (data : List SpendRow) (touchpoint activity : String)
    (sd ed : Nat) : List SpendRow :=
  data.filter (fun r => decide (r.variable_description = touchpoint ∧
    r.activity_type = activity ∧ sd ≤ r.date ∧ r.date ≤ ed))

/-- The working table of `update_graph1` (lines 192-231): the sentinel
`"all_values"` skips the group narrowing entirely; both branches then group
and sum. -/
def updateGraph1 (data : List SpendRow) (touchpoint activity geo : String)
    (sd ed : Nat) : List (SpendKey × ℚ × ℚ) :=
  if geo = "all_values" then
    spendGroupSum (updateGraph1Filter data touchpoint activity sd ed)
  else
    spendGroupSum ((updateGraph1Filter data touchpoint activity sd ed).filter
      (fun r => decide (r.group = geo)))

/-- C6: whenever the sentinel group selector is supplied (`"all_values"` in
the dashboard callbacks, `"all"` or an absent group value in
`get_actual_vs_predicted_plot`), no group-equality predicate is applied:
membership in the working table is characterised by the remaining predicates
alone, so rows of every group satisfying them are included. -/
theorem c6_sentinel_no_group_filter (data : List SpendRow)
    (touchpoint activity : String) (sd ed : Nat) (r : SpendRow)
    (qdata : List QRow) (tp : String) (q : QRow)
    (t : AvpTable) (f : ℚ → ℚ) (is_log : Bool) (gc : Option String) :
    (r ∈ updateGraph1Filter data touchpoint activity sd ed ↔
      r ∈ data ∧ r.variable_description = touchpoint ∧
      r.activity_type = activity ∧ sd ≤ r.date ∧ r.date ≤ ed) ∧
    (updateGraph1 data touchpoint activity "all_values" sd ed
      = spendGroupSum (updateGraph1Filter data touchpoint activity sd ed)) ∧
    (q ∈ qFilter qdata tp ↔ q ∈ qdata ∧ q.variable_description = tp) ∧
    (qUpdateGraph1 qdata tp "all_values" = qGroupSum (qFilter qdata tp)) ∧
    ((getActualVsPredictedPlot t f is_log gc none).2
      = AvpOutcome.figure (avpGroupSum (applyLog f is_log t.rows))) ∧
    ((getActualVsPredictedPlot t f is_log gc (some "all")).2
      = AvpOutcome.figure (avpGroupSum (applyLog f is_log t.rows))) := by
  refine ⟨?_, ?_, ?_, ?_, rfl, ?_⟩
  · rw [updateGraph1Filter, List.mem_filter]
    simp only [decide_eq_true_eq]
  · rw [updateGraph1, if_pos rfl]
  · rw [qFilter, List.mem_filter]
    simp only [decide_eq_true_eq]
  · rw [qUpdateGraph1, if_pos rfl]
  · rw [getActualVsPredictedPlot.eq_def]
    simp

/-- Witness for C6 at a concrete table: the sentinel branch of
`update_graph1` is the aggregation of the group-unfiltered working table. -/
theorem c6_sentinel_witness :
    updateGraph1 [c4SpendRow] "TV" "IMP" "all_values" 0 5
      = spendGroupSum (updateGraph1Filter [c4SpendRow] "TV" "IMP" 0 5) :=
  (c6_sentinel_no_group_filter [c4SpendRow] "TV" "IMP" 0 5 c4SpendRow
    [] "x" ⟨"", "", "", 0⟩ ⟨"d", "g", []⟩ id false none).2.1

def c7Rows : List SpendRow :=
  [⟨"TV", "Imp", "root", 0, "g1", some 10, some 2⟩,
   ⟨"TV", "Imp", "root", 0, "g2", some 5, some 3⟩]

/-- C7: the Aggregator produces exactly one row per distinct grouping key,
with each numeric column equal to the sum over the collapsed rows; in
particular two rows with identical keys and `(Spend, Activity)` values
`(10, 2)` and `(5, 3)` collapse to the single row `(15, 5)`. -/
theorem c7_group_sum (rows : List SpendRow) (k : SpendKey)
    (hk : k ∈ spendKeys rows) :
    (spendGroupSum rows).filter (fun p => decide (p.1 = k))
      = [(k, ((rows.filter (fun r => decide (sKey r = k))).map
            (fun r => r.Spend.getD 0)).sum,
           ((rows.filter (fun r => decide (sKey r = k))).map
            (fun r => r.Activity.getD 0)).sum)] ∧
    spendGroupSum c7Rows = [((0, "root", "TV", "Imp"), 15, 5)] := by
  constructor
  · exact spendGroupSum_filter_key rows k hk
  · have hkeys : spendKeys c7Rows = [((0 : Nat), "root", "TV", "Imp")] := by decide
    have hfil : c7Rows.filter
        (fun r => decide (sKey r = ((0 : Nat), "root", "TV", "Imp"))) = c7Rows := by
      decide
    rw [spendGroupSum, hkeys, List.map_cons, List.map_nil, hfil]
    norm_num [c7Rows, List.map_cons, List.map_nil, List.sum_cons, List.sum_nil,
      Option.getD]

/-- Witness for C7 at the two-row table of the collapsing example. -/
theorem c7_group_sum_witness :
    ((0 : Nat), "root", "TV", "Imp") ∈ spendKeys c7Rows ∧
    (spendGroupSum c7Rows).filter
        (fun p => decide (p.1 = ((0 : Nat), "root", "TV", "Imp")))
      = [(((0 : Nat), "root", "TV", "Imp"),
          ((c7Rows.filter (fun r => decide (sKey r = ((0 : Nat), "root", "TV", "Imp")))).map
            (fun r => r.Spend.getD 0)).sum,
          ((c7Rows.filter (fun r => decide (sKey r = ((0 : Nat), "root", "TV", "Imp")))).map
            (fun r => r.Activity.getD 0)).sum)] := by
  have hk : ((0 : Nat), "root", "TV", "Imp") ∈ spendKeys c7Rows := by decide
  exact ⟨hk, (c7_group_sum c7Rows _ hk).1⟩

/-- C3 amended: when a specific sub-group is requested, the group-and-sum
step still runs in `get_quarterly_spends_plot` and in both dashboard
callbacks `update_graph1`, collapsing the narrowed rows to exactly one summed
row per distinct grouping key; only `get_actual_vs_predicted_plot` and the
callback `update_figure` skip aggregation for a specific sub-group, handing
the filtered rows to the chart unaggregated. -/
theorem c3_amended_aggregation_in_both_branches (data : List QRow) (svd g : String)
    (hv : ((qVars data).any (fun v => lowerStr v == lowerStr svd)) = true) :
    getQuarterlySpendsPlot data svd (some g)
      = QOutcome.figure (qGroupSum ((qFilter data svd).filter
          (fun r => decide (r.group = g)))) ∧
    (∀ k, k ∈ qtrKeys ((qFilter data svd).filter (fun r => decide (r.group = g))) →
      (qGroupSum ((qFilter data svd).filter (fun r => decide (r.group = g)))).filter
          (fun p => decide (p.1 = k))
        = [(k, ((((qFilter data svd).filter (fun r => decide (r.group = g))).filter
            (fun r => decide (r.YEAR_QTR = k))).map (fun r => r.value)).sum)]) ∧
    (∀ (sdata : List SpendRow) (tp act2 geo : String) (sd ed : Nat),
      geo ≠ "all_values" →
      updateGraph1 sdata tp act2 geo sd ed
        = spendGroupSum ((updateGraph1Filter sdata tp act2 sd ed).filter
            (fun r => decide (r.group = geo)))) ∧
    (∀ (sdata : List SpendRow) (tp act2 geo : String) (sd ed : Nat) (k : SpendKey),
      k ∈ spendKeys ((updateGraph1Filter sdata tp act2 sd ed).filter
          (fun r => decide (r.group = geo))) →
      (spendGroupSum ((updateGraph1Filter sdata tp act2 sd ed).filter
          (fun r => decide (r.group = geo)))).filter (fun p => decide (p.1 = k))
        = [(k, ((((updateGraph1Filter sdata tp act2 sd ed).filter
              (fun r => decide (r.group = geo))).filter
              (fun r => decide (sKey r = k))).map (fun r => r.Spend.getD 0)).sum,
             ((((updateGraph1Filter sdata tp act2 sd ed).filter
              (fun r => decide (r.group = geo))).filter
              (fun r => decide (sKey r = k))).map
              (fun r => r.Activity.getD 0)).sum)]) ∧
    (∀ (qdata : List QRow) (tp geo : String), geo ≠ "all_values" →
      qUpdateGraph1 qdata tp geo
        = qGroupSum ((qFilter qdata tp).filter (fun r => decide (r.group = geo)))) ∧
    (∀ (t : AvpTable) (f : ℚ → ℚ) (is_log : Bool) (gv : String), gv ≠ "all" →
      (getActualVsPredictedPlot t f is_log (some t.groupName) (some gv)).2
        = AvpOutcome.figureRows ((applyLog f is_log t.rows).filter
            (fun r => decide (r.group = gv)))) ∧
    (∀ (t : AvpTable) (f : ℚ → ℚ) (is_log : Bool) (g2 : String),
      g2 ≠ "select_all" →
      updateFigure t f is_log g2
        = AvpOutcome.figureRows ((applyLog f is_log t.rows).filter
            (fun r => decide (r.group = g2)))) := by
  refine ⟨?_, ?_, ?_, ?_, ?_, ?_, ?_⟩
  · rw [getQuarterlySpendsPlot, if_neg (by simp [hv])]
  · intro k hk
    exact qGroupSum_filter_key _ k hk
  · intro sdata tp act2 geo sd ed hgeo
    rw [updateGraph1, if_neg hgeo]
  · intro sdata tp act2 geo sd ed k hk
    exact spendGroupSum_filter_key _ k hk
  · intro qdata tp geo hgeo
    rw [qUpdateGraph1, if_neg hgeo]
  · intro t f is_log gv hgv
    rw [getActualVsPredictedPlot]
    simp only [if_neg hgv]
    have hsel : selectByGroup t (applyLog f is_log t.rows) (some t.groupName) gv
        = some ((applyLog f is_log t.rows).filter
            (fun r => decide (r.group = gv))) := by
      rw [selectByGroup, if_pos (by simp [avpColumns])]
      simp
    rw [hsel]
  · intro t f is_log g2 hg2
    simp only [updateFigure]
    rw [if_neg hg2]

/-- Witness for C3's amended theorem: the quarterly pipeline at the
counterexample table, and the dashboard callback's sub-group branch at a
concrete table. -/
theorem c3_amended_witness :
    ((qVars c3Data).any (fun v => lowerStr v == lowerStr "TV")) = true ∧
    getQuarterlySpendsPlot c3Data "TV" (some "A")
      = QOutcome.figure (qGroupSum ((qFilter c3Data "TV").filter
          (fun r => decide (r.group = "A")))) ∧
    updateGraph1 c7Rows "TV" "Imp" "g1" 0 5
      = spendGroupSum ((updateGraph1Filter c7Rows "TV" "Imp" 0 5).filter
          (fun r => decide (r.group = "g1"))) := by
  have hv : ((qVars c3Data).any (fun v => lowerStr v == lowerStr "TV")) = true := by
    decide
  exact ⟨hv, (c3_amended_aggregation_in_both_branches c3Data "TV" "A" hv).1,
    (c3_amended_aggregation_in_both_branches c3Data "TV" "A" hv).2.2.1
      c7Rows "TV" "Imp" "g1" 0 5 (by decide)⟩

/-- `data[mask]`: pandas boolean-mask selection allocates a fresh frame; the
frame selected from is untouched.  Modelled by returning the input unchanged
alongside the selection. -/
def maskSelect (data : List SpendRow) (p : SpendRow → Bool) :
    List SpendRow × List SpendRow :=
  (data, data.filter p)

/-- `act_vs_preds.copy()` (lines 653 and 744): a fresh frame with the same
rows; the input frame is untouched. -/
def copyFrame (rows : List AvpRow) : List AvpRow × List AvpRow := (rows, rows)

/-- The frames of one `update_graph1` firing (lines 83-93): `temp` is
selected from the closed-over `data` by a boolean mask, and the derived
column is assigned on `temp` only; the pair returned is (the input frame as
the firing leaves it, the working table). -/
def updateGraph1Frames (data : List SpendRow) (touchpoint activity : String)
    (sd ed : Nat) : List SpendRow × List (SpendRow × PFloat) :=
  let s := maskSelect data (fun r => decide (r.variable_description = touchpoint ∧
    r.activity_type = activity ∧ sd ≤ r.date ∧ r.date ≤ ed))
  let temp := addCostPerAct s.2
  (s.1, temp)

/-- The frames of `get_actual_vs_predicted_plot` (lines 744-748): the input
is copied and the exponential is assigned onto the copy's columns; the pair
returned is (the caller's frame as the call leaves it, the working frame). -/
def avpFrames (act_vs_preds : List AvpRow) (f : ℚ → ℚ) (is_log : Bool) :
    List AvpRow × List AvpRow :=
  let c := copyFrame act_vs_preds
  (c.1, applyLog f is_log c.2)

/-- C8: the caller's Observation Table is unchanged after an invocation —
every mutation targets the mask-selected or copied working frame — and a
second firing over the table the first one leaves behind computes exactly the
same frames, so firings share no mutable state. -/
theorem c8_input_table_unchanged (data : List SpendRow)
    (touchpoint activity : String) (sd ed : Nat)
    (avp : List AvpRow) (f : ℚ → ℚ) (is_log : Bool) :
    (updateGraph1Frames data touchpoint activity sd ed).1 = data ∧
    (avpFrames avp f is_log).1 = avp ∧
    updateGraph1Frames ((updateGraph1Frames data touchpoint activity sd ed).1)
        touchpoint activity sd ed
      = updateGraph1Frames data touchpoint activity sd ed ∧
    avpFrames ((avpFrames avp f is_log).1) f is_log = avpFrames avp f is_log :=
  ⟨rfl, rfl, rfl, rfl⟩

lemma applyLog_date_map (f : ℚ → ℚ) (rows : List AvpRow) :
    (applyLog f true rows).map (fun r => r.date) = rows.map (fun r => r.date) := by
  rw [applyLog, if_pos rfl, List.map_map]
  rfl

lemma avpDates_applyLog (f : ℚ → ℚ) (rows : List AvpRow) :
    avpDates (applyLog f true rows) = avpDates rows := by
  rw [avpDates, applyLog_date_map]
  rfl

lemma applyLog_filter_date (f : ℚ → ℚ) (rows : List AvpRow) (d : Nat) :
    (applyLog f true rows).filter (fun r => decide (r.date = d))
      = applyLog f true (rows.filter (fun r => decide (r.date = d))) := by
  rw [applyLog, if_pos rfl, applyLog, if_pos rfl, List.filter_map]
  rfl

lemma applyLog_map_actuals (f : ℚ → ℚ) (s : List AvpRow) :
    (applyLog f true s).map (fun r => r.actuals) = s.map (fun r => f r.actuals) := by
  rw [applyLog, if_pos rfl, List.map_map]
  rfl

lemma applyLog_map_preds (f : ℚ → ℚ) (s : List AvpRow) :
    (applyLog f true s).map (fun r => r.preds) = s.map (fun r => f r.preds) := by
  rw [applyLog, if_pos rfl, List.map_map]
  rfl

/-- C10: with `is_log` true the elementwise transform (`np.exp` in the
source) is applied to the `actuals` and `preds` columns before any filtering
or grouping, in both `get_actual_vs_predicted_plot` and the interactive
`update_figure`; hence under the all-groups view the plotted point of each
date is the per-date sum of the transformed values — a sum of exponentials,
not the exponential of the summed values — and with `is_log` false the
columns pass through unchanged. -/
theorem c10_transform_before_grouping (t : AvpTable) (f : ℚ → ℚ)
    (gc : Option String) (d : Nat) (hd : d ∈ avpDates t.rows) :
    (getActualVsPredictedPlot t f true gc (some "all")).2
      = AvpOutcome.figure (avpGroupSum (applyLog f true t.rows)) ∧
    (d, ((t.rows.filter (fun r => decide (r.date = d))).map
          (fun r => f r.actuals)).sum,
        ((t.rows.filter (fun r => decide (r.date = d))).map
          (fun r => f r.preds)).sum)
      ∈ avpGroupSum (applyLog f true t.rows) ∧
    updateFigure t f true "select_all"
      = AvpOutcome.figure (avpGroupSum (applyLog f true t.rows)) ∧
    applyLog f false t.rows = t.rows := by
  refine ⟨?_, ?_, rfl, rfl⟩
  · rw [getActualVsPredictedPlot.eq_def]
    simp
  · have hd2 : d ∈ avpDates (applyLog f true t.rows) := by
      rw [avpDates_applyLog]
      exact hd
    have hmem := List.mem_map_of_mem (fun d2 => (d2,
      (((applyLog f true t.rows).filter (fun r => decide (r.date = d2))).map
        (fun r => r.actuals)).sum,
      (((applyLog f true t.rows).filter (fun r => decide (r.date = d2))).map
        (fun r => r.preds)).sum)) hd2
    have heq : (d, ((t.rows.filter (fun r => decide (r.date = d))).map
          (fun r => f r.actuals)).sum,
        ((t.rows.filter (fun r => decide (r.date = d))).map
          (fun r => f r.preds)).sum)
        = (d, (((applyLog f true t.rows).filter (fun r => decide (r.date = d))).map
            (fun r => r.actuals)).sum,
          (((applyLog f true t.rows).filter (fun r => decide (r.date = d))).map
            (fun r => r.preds)).sum) := by
      rw [applyLog_filter_date, applyLog_map_actuals, applyLog_map_preds]
    rw [heq, avpGroupSum]
    exact hmem

/-- A concrete transform and table for the C10 witness: squaring two rows of
one date shows the plotted point is the sum of the transformed values. -/
def sqTransform : ℚ → ℚ := fun x => x * x

def c10Table : AvpTable := ⟨"date", "geo", [⟨0, "north", 1, 2⟩, ⟨0, "south", 2, 3⟩]⟩

/-- Witness for C10 at the concrete table. -/
theorem c10_transform_witness :
    (0 : Nat) ∈ avpDates c10Table.rows ∧
    ((0 : Nat), ((c10Table.rows.filter (fun r => decide (r.date = 0))).map
          (fun r => sqTransform r.actuals)).sum,
        ((c10Table.rows.filter (fun r => decide (r.date = 0))).map
          (fun r => sqTransform r.preds)).sum)
      ∈ avpGroupSum (applyLog sqTransform true c10Table.rows) := by
  have hd : (0 : Nat) ∈ avpDates c10Table.rows := by decide
  exact ⟨hd, (c10_transform_before_grouping c10Table sqTransform none 0 hd).2.1⟩

end MMX
